import Mathlib

/-!
Shallow embedding of the telemetry session controller of
`src/client/components/Dashboard.tsx` (the SSE version of the
driving-safety dashboard): the data model (`DashboardData`,
`HistoricalEntry`, session state), the RPM-to-speed conversion
(`rpmToKmh`), the ingestion path (`loadData`, `addToHistory`), the
event handlers registered in the component (`step`), and the pure
presentation classifiers of the render code (card statuses, the
connection label).  JavaScript numbers are modelled as rationals,
`Math.round` as `jsRound`, `parseFloat` as `parseFloat`, and
`null`/`undefined` field values as `Option.none`.
-/

/-- Models JavaScript `Math.round x = ⌊x + 1/2⌋` (ties go toward +∞) on
rationals. -/
def jsRound (q : ℚ) : ℤ :=
  ⌊q + 1 / 2⌋

/-- Numeric value of a list of ASCII digits, most significant first. -/
def digitsToNat (l : List Char) : ℕ :=
  l.foldl (fun n c => 10 * n + (c.toNat - 48)) 0

/-- Value of the fractional digits after the decimal point. -/
def fracToRat (l : List Char) : ℚ :=
  (digitsToNat l : ℚ) / ((10 : ℚ) ^ l.length)

/-- Core of the `parseFloat` model: optional sign, then decimal digits
with an optional fractional part; the longest numeric prefix is taken and
anything after it is ignored, and `none` models `NaN` (no digit found). -/
def parseFloatCore (cs : List Char) : Option ℚ :=
  let sgn : ℚ :=
    match cs with
    | '-' :: _ => -1
    | _ => 1
  let rest : List Char :=
    match cs with
    | '-' :: r => r
    | '+' :: r => r
    | _ => cs
  let ip := rest.takeWhile Char.isDigit
  let rest2 := rest.dropWhile Char.isDigit
  let fp : List Char :=
    match rest2 with
    | '.' :: r => r.takeWhile Char.isDigit
    | _ => []
  if ip.isEmpty && fp.isEmpty then none
  else some (sgn * ((digitsToNat ip : ℚ) + fracToRat fp))

/-- Models JavaScript `parseFloat` on the strings this program feeds it:
leading spaces are skipped, then a signed decimal literal is read. -/
def parseFloat (s : String) : Option ℚ :=
  parseFloatCore (s.data.dropWhile (fun c => c == ' '))

/-- The wire `rpm` field is `string | number` in `DashboardData`. -/
inductive RpmValue
  | num (q : ℚ)
  | str (s : String)
deriving DecidableEq

/-- The `DashboardData` interface of `Dashboard.tsx`: every tracked field
is independently nullable (`none` models both `null` and `undefined`). -/
structure DashboardData where
  eyeDrowsy : Option Bool
  steerInactive : Option Bool
  rpm : Option RpmValue
  rolloverDetected : Option Bool
  speed : Option ℚ
deriving DecidableEq

/-- The `HistoricalEntry` interface: a timestamped `DashboardData`. -/
structure HistoricalEntry where
  timestamp : ℕ
  data : DashboardData
deriving DecidableEq

/-- `MAX_HISTORY_ENTRIES = 50` in `Dashboard.tsx`. -/
def MAX_HISTORY_ENTRIES : ℕ := 50

/-- `HISTORY_ADD_INTERVAL = 3000` (ms) in `Dashboard.tsx`. -/
def HISTORY_ADD_INTERVAL : ℕ := 3000

/-- `MOCK_DATA` in `Dashboard.tsx`: the demo/fallback reading. -/
def MOCK_DATA : DashboardData :=
  { eyeDrowsy := some false
    steerInactive := some false
    rpm := some (RpmValue.str "2500")
    rolloverDetected := some false
    speed := none }

/-- `rpmToKmh` of `Dashboard.tsx`: `null`/`undefined` gives `null`, a
string goes through `parseFloat` (`NaN` giving `null`), and a number `n`
gives `Math.round (n * 0.0158)`. -/
def rpmToKmh : Option RpmValue → Option ℚ
  | none => none
  | some (RpmValue.num q) => some ((jsRound (q * (158 / 10000)) : ℤ) : ℚ)
  | some (RpmValue.str s) =>
    match parseFloat s with
    | none => none
    | some q => some ((jsRound (q * (158 / 10000)) : ℤ) : ℚ)

/-- The React state of the `Dashboard` component that the handlers
mutate: `currentData`, `history`, `loading`, `error`, `lastFetched`
(modelled as the update timestamp), `useMockData`, and the
`lastHistoryAddRef` ref.  Times are naturals (ms). -/
structure SessionState where
  currentData : Option DashboardData
  history : List HistoricalEntry
  loading : Bool
  error : Option String
  lastFetched : Option ℕ
  useMockData : Bool
  lastHistoryAdd : ℕ
deriving DecidableEq

/-- The component's initial state: no data, empty history, loading. -/
def initState : SessionState :=
  { currentData := none
    history := []
    loading := true
    error := none
    lastFetched := none
    useMockData := false
    lastHistoryAdd := 0 }

/-- `addToHistory` of `Dashboard.tsx`: push the timestamped entry, then
`shift` (drop the oldest) if the length exceeds `MAX_HISTORY_ENTRIES`. -/
def addToHistory (now : ℕ) (d : DashboardData) (prev : List HistoricalEntry) :
    List HistoricalEntry :=
  let updated := prev ++ [⟨now, d⟩]
  if MAX_HISTORY_ENTRIES < updated.length then updated.tail else updated

/-- The `dataWithSpeed` computation of `loadData`: the stored reading is
the wire reading with `speed` overwritten by `rpmToKmh data.rpm`. -/
def withComputedSpeed (d : DashboardData) : DashboardData :=
  { d with speed := rpmToKmh d.rpm }

/-- `loadData` of `Dashboard.tsx`: store the reading with its computed
speed, clear the error, record the fetch time and the mock flag, and
append to history only when at least `HISTORY_ADD_INTERVAL` ms have
passed since the last history write. -/
def loadData (now : ℕ) (d : DashboardData) (isMock : Bool) (st : SessionState) :
    SessionState :=
  let dataWithSpeed := withComputedSpeed d
  let st1 : SessionState :=
    { st with
        currentData := some dataWithSpeed
        error := none
        lastFetched := some now
        useMockData := isMock }
  if HISTORY_ADD_INTERVAL ≤ now - st.lastHistoryAdd then
    { st1 with
        history := addToHistory now dataWithSpeed st1.history
        lastHistoryAdd := now }
  else st1

/-- The events the component reacts to: `eventSource.onopen`,
`eventSource.onmessage` (`none` models a payload `JSON.parse` rejects,
`some d` a payload parsing to the reading `d`), `eventSource.onerror`,
and a click on the Use Demo Data button.  These are the only state
transitions registered anywhere in `Dashboard.tsx`. -/
inductive SEvent
  | onOpen
  | onMessage (payload : Option DashboardData)
  | onError
  | demoClick
deriving DecidableEq

/-- One handler dispatch at time `now`, exactly as the handlers in
`Dashboard.tsx` mutate the state (parse failures only log). -/
def step (now : ℕ) (st : SessionState) : SEvent → SessionState
  | SEvent.onOpen => { st with loading := false, error := none }
  | SEvent.onMessage none => st
  | SEvent.onMessage (some d) => loadData now d false st
  | SEvent.onError =>
    { st with
        error := some "Connection lost to real-time data stream"
        loading := false }
  | SEvent.demoClick => loadData now MOCK_DATA true { st with loading := false }

/-- A session run: fold the timestamped events over the state. -/
def run (st : SessionState) (evs : List (ℕ × SEvent)) : SessionState :=
  evs.foldl (fun s pe => step pe.1 s pe.2) st

/-- The three card colours of the `status` prop of `DataCard`. -/
inductive CardStatus
  | safe
  | warning
  | danger
deriving DecidableEq

/-- The Vehicle Speed card's `status` expression: `danger` when the speed
is a number above 120, `warning` when a number above 80, otherwise
(including a non-number speed) `safe`. -/
def speedCardStatus : Option ℚ → CardStatus
  | some s =>
    if 120 < s then CardStatus.danger
    else if 80 < s then CardStatus.warning
    else CardStatus.safe
  | none => CardStatus.safe

/-- The Driver Drowsiness card's `status` expression. -/
def eyeDrowsyCardStatus : Option Bool → Option CardStatus
  | some true => some CardStatus.danger
  | some false => some CardStatus.safe
  | none => none

/-- The Steering Status card's `status` expression. -/
def steerCardStatus : Option Bool → Option CardStatus
  | some true => some CardStatus.warning
  | some false => some CardStatus.safe
  | none => none

/-- The Rollover Detection card's `status` expression. -/
def rolloverCardStatus : Option Bool → Option CardStatus
  | some true => some CardStatus.danger
  | some false => some CardStatus.safe
  | none => none

/-- The header's connection label in `Dashboard.tsx`. -/
inductive ConnLabel
  | streamOffline
  | demoMode
  | streamingLive
deriving DecidableEq

/-- The header indicator: `error && !useMockData` shows Stream Offline,
`useMockData` shows Demo Mode, otherwise Streaming Live.  These three
labels are the only connection statuses the component ever renders. -/
def connLabel (st : SessionState) : ConnLabel :=
  if st.error.isSome && !st.useMockData then ConnLabel.streamOffline
  else if st.useMockData then ConnLabel.demoMode
  else ConnLabel.streamingLive

/-- The all-null reading, i.e. what `JSON.parse "{}"` yields once every
tracked field is read as `undefined`. -/
def emptyReading : DashboardData :=
  { eyeDrowsy := none
    steerInactive := none
    rpm := none
    rolloverDetected := none
    speed := none }

/-- The reading carrying only a wire speed of 125 (`{"speed": 125}`). -/
def speed125Reading : DashboardData :=
  { emptyReading with speed := some (125 : ℚ) }

lemma parseFloat_str2500 : parseFloat "2500" = some 2500 := by
  have h : parseFloat "2500" = some ((1 : ℚ) * (((2500 : ℕ) : ℚ) + fracToRat [])) := rfl
  rw [h, fracToRat]
  norm_num [digitsToNat]

lemma jsRound_rpm2500 : jsRound ((2500 : ℚ) * (158 / 10000)) = 40 := by
  rw [jsRound, show ((2500 : ℚ) * (158 / 10000) + 1 / 2) = ((40 : ℤ) : ℚ) by norm_num]
  exact Int.floor_intCast 40

lemma rpmToKmh_str2500 : rpmToKmh (some (RpmValue.str "2500")) = some 40 := by
  show (match parseFloat "2500" with
    | none => none
    | some q => some ((jsRound (q * (158 / 10000)) : ℤ) : ℚ)) = some 40
  rw [parseFloat_str2500]
  simp [jsRound_rpm2500]

/-- C1: the claim says an all-null message sets status Fallback, replaces
the reading with fallback defaults and skips history; the code's
`onmessage` has no validity check: it stores the all-null reading itself,
appends it to history (the debounce window being open), leaves the mock
flag clear and renders the Streaming Live label — there is no Fallback
transition in `Dashboard.tsx`. -/
theorem c1_empty_message_is_loaded_and_recorded :
    (run initState [(5000, SEvent.onMessage (some emptyReading))]).history
      = [⟨5000, withComputedSpeed emptyReading⟩]
    ∧ (run initState [(5000, SEvent.onMessage (some emptyReading))]).currentData
      = some (withComputedSpeed emptyReading)
    ∧ withComputedSpeed emptyReading = emptyReading
    ∧ (run initState [(5000, SEvent.onMessage (some emptyReading))]).useMockData = false
    ∧ connLabel (run initState [(5000, SEvent.onMessage (some emptyReading))])
      = ConnLabel.streamingLive :=
  ⟨rfl, rfl, rfl, rfl, rfl⟩

/-- C2: the claim says history never contains a fallback-derived reading;
the Use Demo Data path of the code calls `loadData MOCK_DATA` which, the
debounce window being open, appends the mock reading (with its computed
speed 40) to history. -/
theorem c2_demo_data_enters_history :
    (run initState [(0, SEvent.onError), (5000, SEvent.demoClick)]).history
      = [⟨5000, withComputedSpeed MOCK_DATA⟩]
    ∧ (withComputedSpeed MOCK_DATA).speed = some 40
    ∧ (run initState [(0, SEvent.onError), (5000, SEvent.demoClick)]).useMockData = true
    ∧ connLabel (run initState [(0, SEvent.onError), (5000, SEvent.demoClick)])
      = ConnLabel.demoMode := by
  refine ⟨rfl, ?_, rfl, rfl⟩
  show rpmToKmh (some (RpmValue.str "2500")) = some 40
  exact rpmToKmh_str2500

/-- C3: `loadData` always stores the reading with `speed` overwritten by
`rpmToKmh data.rpm` (so the wire speed is never used): a numeric rpm `q`
gives `round (q * 0.0158)`, a null/absent rpm gives null, a string goes
through `parseFloat` with `NaN` giving null, and the numeric string
"2500" gives speed 40. -/
theorem c3_speed_always_derived_from_rpm (now : ℕ) (isMock : Bool)
    (d : DashboardData) (st : SessionState) :
    (loadData now d isMock st).currentData = some (withComputedSpeed d)
    ∧ (withComputedSpeed d).speed = rpmToKmh d.rpm
    ∧ (∀ w : Option ℚ, withComputedSpeed { d with speed := w } = withComputedSpeed d)
    ∧ rpmToKmh none = none
    ∧ (∀ q : ℚ, rpmToKmh (some (RpmValue.num q))
        = some ((jsRound (q * (158 / 10000)) : ℤ) : ℚ))
    ∧ (∀ s : String, rpmToKmh (some (RpmValue.str s))
        = (parseFloat s).map fun q => ((jsRound (q * (158 / 10000)) : ℤ) : ℚ))
    ∧ rpmToKmh (some (RpmValue.str "2500")) = some 40 := by
  refine ⟨?_, rfl, fun w => rfl, rfl, fun q => rfl, ?_, rpmToKmh_str2500⟩
  · by_cases hc : HISTORY_ADD_INTERVAL ≤ now - st.lastHistoryAdd <;>
      simp [loadData, hc]
  · intro s
    show (match parseFloat s with
      | none => none
      | some q => some ((jsRound (q * (158 / 10000)) : ℤ) : ℚ))
      = (parseFloat s).map fun q => ((jsRound (q * (158 / 10000)) : ℤ) : ℚ)
    cases parseFloat s <;> rfl

/-- C7: the claim says a 5000 ms connection timeout applies the fallback
reading and status; `Dashboard.tsx` schedules no timer at all, so with no
channel event the session state never changes: after `start` and any
silent wait it is still the initial state — no data, loading, no mock
flag, Streaming Live label — rather than the fallback defaults. -/
theorem c7_no_connection_timeout_exists :
    run initState [] = initState
    ∧ initState.currentData = none
    ∧ initState.loading = true
    ∧ initState.useMockData = false
    ∧ connLabel initState = ConnLabel.streamingLive :=
  ⟨rfl, rfl, rfl, rfl, rfl⟩

/-- C8: an inbound event whose payload fails `JSON.parse` leaves the
whole session state unchanged (the catch handler only logs). -/
theorem c8_parse_failure_is_noop (now : ℕ) (st : SessionState) :
    step now st (SEvent.onMessage none) = st :=
  rfl

/-- C9 counterexample: for the payload with wire speed 125 and no rpm, the
claim says the tier is danger; after `onMessage` the computed speed is
null and the Vehicle Speed card's tier is safe, not danger. -/
theorem c9_counterexample_wire_speed_discarded :
    ((run initState [(3000, SEvent.onMessage (some speed125Reading))]).currentData.map
      fun d => speedCardStatus d.speed) = some CardStatus.safe
    ∧ some CardStatus.safe ≠ some CardStatus.danger :=
  ⟨rfl, by simp⟩

/-- C9 amended: after `onMessage` processes the payload with wire speed
125 and no rpm, the stored speed is null (the wire speed is discarded and
recomputed from the absent rpm) and the Vehicle Speed card's tier falls
through to safe. -/
theorem c9_amended_wire_speed_discarded_tier_safe :
    (run initState [(3000, SEvent.onMessage (some speed125Reading))]).currentData
      = some (withComputedSpeed speed125Reading)
    ∧ (withComputedSpeed speed125Reading).speed = none
    ∧ ((run initState [(3000, SEvent.onMessage (some speed125Reading))]).currentData.map
      fun d => speedCardStatus d.speed) = some CardStatus.safe :=
  ⟨rfl, rfl, rfl⟩

/-- C10: with a null (non-number) speed the Vehicle Speed card's status
falls through to safe, while the drowsiness, steering and rollover cards
have no status (undefined) when their field is null. -/
theorem c10_null_field_statuses :
    speedCardStatus none = CardStatus.safe
    ∧ eyeDrowsyCardStatus none = none
    ∧ steerCardStatus none = none
    ∧ rolloverCardStatus none = none :=
  ⟨rfl, rfl, rfl, rfl⟩

/-- C4: for a numeric speed the Vehicle Speed card classifies safe iff
the speed is at most 80, warning iff it is above 80 and at most 120, and
danger iff it is above 120; in particular speed 80 is safe, and the three
tiers partition the numeric range. -/
theorem c4_speed_tiers_partition (s : ℚ) :
    (speedCardStatus (some s) = CardStatus.safe ↔ s ≤ 80)
    ∧ (speedCardStatus (some s) = CardStatus.warning ↔ 80 < s ∧ s ≤ 120)
    ∧ (speedCardStatus (some s) = CardStatus.danger ↔ 120 < s)
    ∧ speedCardStatus (some 80) = CardStatus.safe := by
  have hsafe : ∀ t : ℚ, speedCardStatus (some t) = CardStatus.safe ↔ t ≤ 80 := by
    intro t
    simp only [speedCardStatus]
    split_ifs with h1 h2
    · exact ⟨fun h => (nomatch h), fun h => (by exfalso; linarith)⟩
    · exact ⟨fun h => (nomatch h), fun h => (by exfalso; linarith)⟩
    · exact ⟨fun _ => (by linarith), fun _ => rfl⟩
  have hwarn : ∀ t : ℚ,
      speedCardStatus (some t) = CardStatus.warning ↔ 80 < t ∧ t ≤ 120 := by
    intro t
    simp only [speedCardStatus]
    split_ifs with h1 h2
    · exact ⟨fun h => (nomatch h), fun h => (by exfalso; linarith [h.2])⟩
    · exact ⟨fun _ => ⟨h2, (by linarith)⟩, fun _ => rfl⟩
    · exact ⟨fun h => (nomatch h), fun h => absurd h.1 h2⟩
  have hdanger : ∀ t : ℚ,
      speedCardStatus (some t) = CardStatus.danger ↔ 120 < t := by
    intro t
    simp only [speedCardStatus]
    split_ifs with h1 h2
    · exact ⟨fun _ => h1, fun _ => rfl⟩
    · exact ⟨fun h => (nomatch h), fun h => absurd h h1⟩
    · exact ⟨fun h => (nomatch h), fun h => absurd h h1⟩
  exact ⟨hsafe s, hwarn s, hdanger s, (hsafe 80).mpr (by norm_num)⟩

lemma addToHistory_length_le (now : ℕ) (d : DashboardData)
    (prev : List HistoricalEntry) (h : prev.length ≤ MAX_HISTORY_ENTRIES) :
    (addToHistory now d prev).length ≤ MAX_HISTORY_ENTRIES := by
  simp only [addToHistory]
  split_ifs with hc
  · simp only [List.length_tail, List.length_append, List.length_cons,
      List.length_nil] at hc h ⊢
    omega
  · simp only [List.length_append, List.length_cons, List.length_nil] at hc h ⊢
    omega

lemma loadData_history_le (now : ℕ) (d : DashboardData) (isMock : Bool)
    (st : SessionState) (h : st.history.length ≤ MAX_HISTORY_ENTRIES) :
    (loadData now d isMock st).history.length ≤ MAX_HISTORY_ENTRIES := by
  simp only [loadData]
  split_ifs with hc
  · exact addToHistory_length_le now (withComputedSpeed d) st.history h
  · exact h

lemma step_history_le (now : ℕ) (st : SessionState) (e : SEvent)
    (h : st.history.length ≤ MAX_HISTORY_ENTRIES) :
    (step now st e).history.length ≤ MAX_HISTORY_ENTRIES := by
  cases e with
  | onOpen => exact h
  | onMessage p =>
    cases p with
    | none => exact h
    | some d => exact loadData_history_le now d false st h
  | onError => exact h
  | demoClick => exact loadData_history_le now MOCK_DATA true _ h

lemma run_history_le (evs : List (ℕ × SEvent)) (st : SessionState)
    (h : st.history.length ≤ MAX_HISTORY_ENTRIES) :
    (run st evs).history.length ≤ MAX_HISTORY_ENTRIES := by
  induction evs generalizing st with
  | nil => exact h
  | cons pe rest ih => exact ih _ (step_history_le pe.1 st pe.2 h)

/-- C5: in every reachable session state the history holds at most 50
entries, and an append to a full history of 50 evicts exactly the oldest
entry, keeping the relative order of the rest. -/
theorem c5_history_capped_fifo (evs : List (ℕ × SEvent)) :
    (run initState evs).history.length ≤ MAX_HISTORY_ENTRIES
    ∧ (∀ (prev : List HistoricalEntry) (now : ℕ) (d : DashboardData),
        prev.length ≤ MAX_HISTORY_ENTRIES →
          (addToHistory now d prev).length ≤ MAX_HISTORY_ENTRIES
          ∧ (prev.length = MAX_HISTORY_ENTRIES →
              addToHistory now d prev = prev.tail ++ [⟨now, d⟩])) := by
  refine ⟨run_history_le evs initState (by simp [initState]), ?_⟩
  intro prev now d hle
  refine ⟨addToHistory_length_le now d prev hle, fun hfull => ?_⟩
  cases prev with
  | nil => simp [MAX_HISTORY_ENTRIES] at hfull
  | cons a t =>
    simp only [addToHistory]
    rw [if_pos]
    · rfl
    · simp only [List.length_append, List.length_cons, MAX_HISTORY_ENTRIES] at hfull ⊢
      omega

/-- C5 witness: a one-message run keeps the bound, and appending to a
full 50-entry history evicts exactly the oldest entry. -/
theorem c5_witness :
    (run initState [(3000, SEvent.onMessage (some emptyReading))]).history.length
      ≤ MAX_HISTORY_ENTRIES
    ∧ addToHistory 3000 emptyReading
        (List.replicate 50 (⟨0, emptyReading⟩ : HistoricalEntry))
      = (List.replicate 50 (⟨0, emptyReading⟩ : HistoricalEntry)).tail
          ++ [⟨3000, emptyReading⟩] :=
  ⟨(c5_history_capped_fifo [(3000, SEvent.onMessage (some emptyReading))]).1,
    ((c5_history_capped_fifo [(3000, SEvent.onMessage (some emptyReading))]).2
      (List.replicate 50 ⟨0, emptyReading⟩) 3000 emptyReading
      (by simp [MAX_HISTORY_ENTRIES])).2 (by simp [MAX_HISTORY_ENTRIES])⟩

/-- C6: two valid messages processed less than 3000 ms apart trigger at
most one history append — the two trigger conditions cannot both hold,
and when the first appends (anchoring the window at its time) the second
leaves history unchanged — and an append happens exactly when the time
since the last history write is at least `HISTORY_ADD_INTERVAL`. -/
theorem c6_debounce_window (st : SessionState) (t1 t2 : ℕ)
    (d1 d2 : DashboardData) (_h12 : t1 ≤ t2)
    (hlt : t2 - t1 < HISTORY_ADD_INTERVAL) :
    ¬ (HISTORY_ADD_INTERVAL ≤ t1 - st.lastHistoryAdd
        ∧ HISTORY_ADD_INTERVAL ≤ t2 - (loadData t1 d1 false st).lastHistoryAdd)
    ∧ (HISTORY_ADD_INTERVAL ≤ t1 - st.lastHistoryAdd →
        (loadData t2 d2 false (loadData t1 d1 false st)).history
          = (loadData t1 d1 false st).history)
    ∧ (HISTORY_ADD_INTERVAL ≤ t1 - st.lastHistoryAdd →
        (loadData t1 d1 false st).history
          = addToHistory t1 (withComputedSpeed d1) st.history
        ∧ (loadData t1 d1 false st).lastHistoryAdd = t1)
    ∧ (t1 - st.lastHistoryAdd < HISTORY_ADD_INTERVAL →
        (loadData t1 d1 false st).history = st.history
        ∧ (loadData t1 d1 false st).lastHistoryAdd = st.lastHistoryAdd) := by
  by_cases hc : HISTORY_ADD_INTERVAL ≤ t1 - st.lastHistoryAdd
  · have hadd : (loadData t1 d1 false st).lastHistoryAdd = t1 := by
      simp [loadData, hc]
    refine ⟨?_, ?_, fun _ => ⟨by simp [loadData, hc], hadd⟩, fun hlt1 => absurd hc (by omega)⟩
    · rintro ⟨-, h2⟩
      rw [hadd] at h2
      omega
    · intro _
      have hc2 : ¬ HISTORY_ADD_INTERVAL ≤ t2 - (loadData t1 d1 false st).lastHistoryAdd := by
        rw [hadd]; omega
      simp only [loadData] at hc2 ⊢
      rw [if_neg hc2]
  · refine ⟨fun h => hc h.1, fun h => absurd h hc, fun h => absurd h hc,
      fun _ => ⟨by simp [loadData, hc], by simp [loadData, hc]⟩⟩

/-- C6 witness: from the initial state, a first valid message at 3000 ms
and a second at 4000 ms (1000 ms apart) cannot both trigger an append. -/
theorem c6_witness :
    ¬ (HISTORY_ADD_INTERVAL ≤ 3000 - initState.lastHistoryAdd
        ∧ HISTORY_ADD_INTERVAL
            ≤ 4000 - (loadData 3000 emptyReading false initState).lastHistoryAdd) :=
  (c6_debounce_window initState 3000 4000 emptyReading emptyReading
    (by omega) (by simp [HISTORY_ADD_INTERVAL])).1
